import Mathlib

/-!
# Grid-trading bot: shallow embedding and claim verification

This file embeds the core of the grid-trading bot (trading engine service,
grid-level repository, transaction repository, order-assurance gateway) as
pure Lean functions and proves properties of the embedded operations.

Modelling conventions:

* `shopspring/decimal` values (arbitrary-precision decimals) are modelled as
  exact rationals (`Dec := ℚ`).  Addition, subtraction, multiplication and
  comparisons of decimals are exact, so `ℚ` is faithful for them.  `Decimal.Div`
  rounds its result to 16 fractional digits; the only places division occurs in
  the embedded code are `profit_pct` (not covered by any claim) and the
  quantity quantization helpers, where all concrete inputs used below divide
  exactly, so exact `ℚ` division coincides with the source behaviour there.
* The SQL store is a `DB` value: the mutable `grid_levels` table is a list of
  rows and the append-only `transactions` table a list of rows.  A SQL
  `UPDATE ... WHERE` is a conditional map over the rows; `rowsAffected > 0`
  is `List.any` of the `WHERE` clause.  `QueryRow` on a non-unique filter
  returns the first matching row (`List.find?`).
* `created_at` timestamps are seconds as `Nat`, supplied by the caller as a
  `now` argument; surrogate transaction ids are assigned sequentially.
* Outbound HTTP collaborators (the gateway's place / status operations) are
  function-valued parameters; `Except String` models Go's `error` results.
-/

attribute [local semireducible] Rat.add Rat.mul Rat.sub Rat.inv

namespace GridBot

/-- Decimal values (shopspring/decimal), modelled as exact rationals. -/
abbrev Dec := ℚ

/-- Grid level lifecycle states (models/grid_level.go). -/
inductive GridState where
  | READY
  | PLACING_BUY
  | BUY_ACTIVE
  | HOLDING
  | PLACING_SELL
  | SELL_ACTIVE
  | ERROR
deriving DecidableEq, Repr

/-- Transaction side (models/transaction.go). -/
inductive TransactionSide where
  | BUY
  | SELL
deriving DecidableEq, Repr

/-- Transaction status (models/transaction.go). -/
inductive TransactionStatus where
  | PLACED
  | FILLED
  | ERROR
deriving DecidableEq, Repr

/-- Order side as used between engine and gateway ("buy" / "sell"). -/
inductive OrderSide where
  | buy
  | sell
deriving DecidableEq, Repr

/-- A `grid_levels` row (models/grid_level.go).  Nullable columns are
`Option`; level timestamps are not modelled (no claim depends on them). -/
structure GridLevel where
  id : Nat
  symbol : String
  buyPrice : Dec
  sellPrice : Dec
  buyAmount : Dec
  filledAmount : Option Dec
  state : GridState
  buyOrderID : Option String
  sellOrderID : Option String
  enabled : Bool
deriving DecidableEq, Repr

/-- A `transactions` row (models/transaction.go). -/
structure Transaction where
  id : Nat
  gridLevelID : Nat
  symbol : String
  side : TransactionSide
  status : TransactionStatus
  orderID : Option String
  targetPrice : Dec
  executedPrice : Option Dec
  amountCoin : Option Dec
  amountUSDT : Option Dec
  relatedBuyID : Option Nat
  profitUSDT : Option Dec
  profitPct : Option Dec
  errorCode : Option String
  errorMsg : Option String
  createdAt : Nat
deriving DecidableEq, Repr

/-- The relational store: `grid_levels` plus the append-only `transactions`. -/
structure DB where
  levels : List GridLevel
  txs : List Transaction
deriving DecidableEq, Repr

/-- models/grid_level.go `CanPlaceBuy`: READY, enabled, and the current
price strictly above the buy price. -/
def GridLevel.CanPlaceBuy (g : GridLevel) (currentPrice : Dec) : Bool :=
  g.state = GridState.READY && g.enabled && decide (g.buyPrice < currentPrice)

/-- models/grid_level.go `CanPlaceSell`: HOLDING, enabled, current price
strictly below the sell price, and a positive filled amount present. -/
def GridLevel.CanPlaceSell (g : GridLevel) (currentPrice : Dec) : Bool :=
  g.state = GridState.HOLDING && g.enabled && decide (currentPrice < g.sellPrice) &&
    (match g.filledAmount with
     | some fa => decide (0 < fa)
     | none => false)

namespace GridLevelRepository

/-- `SELECT ... WHERE id = $1` (GetByID); `QueryRow` yields the first match. -/
def GetByID (db : DB) (id : Nat) : Option GridLevel :=
  db.levels.find? (fun l => decide (l.id = id))

/-- `SELECT ... WHERE buy_order_id = $1` (GetByBuyOrderID). -/
def GetByBuyOrderID (db : DB) (orderID : String) : Option GridLevel :=
  db.levels.find? (fun l => decide (l.buyOrderID = some orderID))

/-- `SELECT ... WHERE sell_order_id = $1` (GetBySellOrderID). -/
def GetBySellOrderID (db : DB) (orderID : String) : Option GridLevel :=
  db.levels.find? (fun l => decide (l.sellOrderID = some orderID))

/-- `UPDATE grid_levels SET state = $1 WHERE id = $2` (UpdateState);
unconditional on the current state. -/
def UpdateState (db : DB) (id : Nat) (st : GridState) : DB :=
  { db with levels := db.levels.map (fun l =>
      if l.id = id then { l with state := st } else l) }

/-- `TryStartBuyOrder`: conditional update
`SET state = PLACING_BUY WHERE id = ? AND state = READY AND enabled = true`;
returns whether a row was affected.  On zero rows the transaction is rolled
back and the store is unchanged. -/
def TryStartBuyOrder (db : DB) (id : Nat) : Bool × DB :=
  if db.levels.any (fun l => decide (l.id = id ∧ l.state = GridState.READY ∧ l.enabled = true)) then
    (true, { db with levels := db.levels.map (fun l =>
        if l.id = id ∧ l.state = GridState.READY ∧ l.enabled = true then
          { l with state := GridState.PLACING_BUY } else l) })
  else (false, db)

/-- `TryStartSellOrder`: conditional update
`SET state = PLACING_SELL WHERE id = ? AND state = HOLDING AND enabled = true
AND filled_amount IS NOT NULL`. -/
def TryStartSellOrder (db : DB) (id : Nat) : Bool × DB :=
  if db.levels.any (fun l => decide (l.id = id ∧ l.state = GridState.HOLDING ∧ l.enabled = true ∧ l.filledAmount ≠ none)) then
    (true, { db with levels := db.levels.map (fun l =>
        if l.id = id ∧ l.state = GridState.HOLDING ∧ l.enabled = true ∧ l.filledAmount ≠ none then
          { l with state := GridState.PLACING_SELL } else l) })
  else (false, db)

/-- `UpdateBuyOrderPlaced`: conditional update
`SET state = BUY_ACTIVE, buy_order_id = $2 WHERE id = $3 AND state =
PLACING_BUY`; zero affected rows is reported as an error (`false`). -/
def UpdateBuyOrderPlaced (db : DB) (id : Nat) (orderID : String) : Bool × DB :=
  if db.levels.any (fun l => decide (l.id = id ∧ l.state = GridState.PLACING_BUY)) then
    (true, { db with levels := db.levels.map (fun l =>
        if l.id = id ∧ l.state = GridState.PLACING_BUY then
          { l with state := GridState.BUY_ACTIVE, buyOrderID := some orderID } else l) })
  else (false, db)

/-- `UpdateSellOrderPlaced`: conditional update
`SET state = SELL_ACTIVE, sell_order_id = $2 WHERE id = $3 AND state =
PLACING_SELL`. -/
def UpdateSellOrderPlaced (db : DB) (id : Nat) (orderID : String) : Bool × DB :=
  if db.levels.any (fun l => decide (l.id = id ∧ l.state = GridState.PLACING_SELL)) then
    (true, { db with levels := db.levels.map (fun l =>
        if l.id = id ∧ l.state = GridState.PLACING_SELL then
          { l with state := GridState.SELL_ACTIVE, sellOrderID := some orderID } else l) })
  else (false, db)

/-- `ProcessBuyFill`: conditional update
`SET state = HOLDING, filled_amount = $2, buy_order_id = NULL WHERE id = $3
AND state = BUY_ACTIVE`; zero affected rows is not an error. -/
def ProcessBuyFill (db : DB) (id : Nat) (filledAmount : Dec) : DB :=
  { db with levels := db.levels.map (fun l =>
      if l.id = id ∧ l.state = GridState.BUY_ACTIVE then
        { l with state := GridState.HOLDING, filledAmount := some filledAmount,
                 buyOrderID := none }
      else l) }

/-- `ProcessSellFill`: conditional update
`SET state = READY, filled_amount = NULL, sell_order_id = NULL WHERE id = $2
AND state = SELL_ACTIVE`. -/
def ProcessSellFill (db : DB) (id : Nat) : DB :=
  { db with levels := db.levels.map (fun l =>
      if l.id = id ∧ l.state = GridState.SELL_ACTIVE then
        { l with state := GridState.READY, filledAmount := none, sellOrderID := none }
      else l) }

end GridLevelRepository

namespace TransactionRepository

/-- Surrogate id for the next inserted transaction row. -/
def nextTxID (db : DB) : Nat :=
  db.txs.length + 1

/-- `RecordBuyPlaced`: insert a BUY/PLACED row. -/
def RecordBuyPlaced (db : DB) (now : Nat) (gridLevelID : Nat) (symbol orderID : String)
    (targetPrice amountUSDT : Dec) : DB :=
  { db with txs := db.txs ++ [{
      id := nextTxID db, gridLevelID, symbol,
      side := TransactionSide.BUY, status := TransactionStatus.PLACED,
      orderID := some orderID, targetPrice,
      executedPrice := none, amountCoin := none, amountUSDT := some amountUSDT,
      relatedBuyID := none, profitUSDT := none, profitPct := none,
      errorCode := none, errorMsg := none, createdAt := now }] }

/-- `RecordSellPlaced`: insert a SELL/PLACED row. -/
def RecordSellPlaced (db : DB) (now : Nat) (gridLevelID : Nat) (symbol orderID : String)
    (targetPrice amountCoin : Dec) : DB :=
  { db with txs := db.txs ++ [{
      id := nextTxID db, gridLevelID, symbol,
      side := TransactionSide.SELL, status := TransactionStatus.PLACED,
      orderID := some orderID, targetPrice,
      executedPrice := none, amountCoin := some amountCoin, amountUSDT := none,
      relatedBuyID := none, profitUSDT := none, profitPct := none,
      errorCode := none, errorMsg := none, createdAt := now }] }

/-- The BUY/FILLED row inserted by `RecordBuyFilled`. -/
def buyFilledRow (db : DB) (now : Nat) (gridLevelID : Nat) (symbol orderID : String)
    (targetPrice executedPrice amountCoin amountUSDT : Dec) : Transaction :=
  { id := nextTxID db, gridLevelID, symbol,
    side := TransactionSide.BUY, status := TransactionStatus.FILLED,
    orderID := some orderID, targetPrice,
    executedPrice := some executedPrice, amountCoin := some amountCoin,
    amountUSDT := some amountUSDT,
    relatedBuyID := none, profitUSDT := none, profitPct := none,
    errorCode := none, errorMsg := none, createdAt := now }

/-- `RecordBuyFilled`: insert a BUY/FILLED row. -/
def RecordBuyFilled (db : DB) (now : Nat) (gridLevelID : Nat) (symbol orderID : String)
    (targetPrice executedPrice amountCoin amountUSDT : Dec) : DB :=
  { db with txs := db.txs ++ [buyFilledRow db now gridLevelID symbol orderID
      targetPrice executedPrice amountCoin amountUSDT] }

/-- `RecordSellFilled`: insert a SELL/FILLED row.  The Go caller always
passes concrete `related_buy_id`, `profit_usdt`, `profit_pct` values (zero
values when no buy transaction was found), so the columns are populated. -/
def RecordSellFilled (db : DB) (now : Nat) (gridLevelID : Nat) (symbol orderID : String)
    (targetPrice executedPrice amountCoin amountUSDT : Dec)
    (relatedBuyID : Nat) (profitUSDT profitPct : Dec) : DB :=
  { db with txs := db.txs ++ [{
      id := nextTxID db, gridLevelID, symbol,
      side := TransactionSide.SELL, status := TransactionStatus.FILLED,
      orderID := some orderID, targetPrice,
      executedPrice := some executedPrice, amountCoin := some amountCoin,
      amountUSDT := some amountUSDT,
      relatedBuyID := some relatedBuyID, profitUSDT := some profitUSDT,
      profitPct := some profitPct,
      errorCode := none, errorMsg := none, createdAt := now }] }

/-- The `NOT EXISTS` subquery of `recordError`: an identical ERROR row
(same level, symbol, side, target price and message) with
`created_at > now - 1 hour` is already present. -/
def hasRecentIdenticalError (txs : List Transaction) (now : Nat) (gridLevelID : Nat)
    (symbol : String) (side : TransactionSide) (targetPrice : Dec)
    (errorMsg : String) : Bool :=
  txs.any (fun t => decide (t.gridLevelID = gridLevelID ∧ t.symbol = symbol ∧
    t.side = side ∧ t.status = TransactionStatus.ERROR ∧
    t.targetPrice = targetPrice ∧ t.errorMsg = some errorMsg ∧
    now < t.createdAt + 3600))

/-- `recordError`: insert an ERROR row unless an identical one exists within
the last hour (the one-hour dedup in the SQL `NOT EXISTS`). -/
def recordError (db : DB) (now : Nat) (gridLevelID : Nat) (symbol : String)
    (side : TransactionSide) (targetPrice : Dec) (errorCode errorMsg : String) : DB :=
  if hasRecentIdenticalError db.txs now gridLevelID symbol side targetPrice errorMsg then
    db
  else
    { db with txs := db.txs ++ [{
        id := nextTxID db, gridLevelID, symbol, side,
        status := TransactionStatus.ERROR,
        orderID := none, targetPrice,
        executedPrice := none, amountCoin := none, amountUSDT := none,
        relatedBuyID := none, profitUSDT := none, profitPct := none,
        errorCode := some errorCode, errorMsg := some errorMsg, createdAt := now }] }

/-- `RecordBuyError`. -/
def RecordBuyError (db : DB) (now : Nat) (gridLevelID : Nat) (symbol : String)
    (targetPrice : Dec) (errorCode errorMsg : String) : DB :=
  recordError db now gridLevelID symbol TransactionSide.BUY targetPrice errorCode errorMsg

/-- `RecordSellError`. -/
def RecordSellError (db : DB) (now : Nat) (gridLevelID : Nat) (symbol : String)
    (targetPrice : Dec) (errorCode errorMsg : String) : DB :=
  recordError db now gridLevelID symbol TransactionSide.SELL targetPrice errorCode errorMsg

/-- `GetLastBuyForLevel`: the BUY/FILLED row for the level with the greatest
`created_at` (`ORDER BY created_at DESC LIMIT 1`); insertion order breaks
`created_at` ties. -/
def GetLastBuyForLevel (db : DB) (gridLevelID : Nat) : Option Transaction :=
  (db.txs.filter (fun t => decide (t.gridLevelID = gridLevelID ∧
      t.side = TransactionSide.BUY ∧ t.status = TransactionStatus.FILLED))).foldl
    (fun acc t =>
      match acc with
      | none => some t
      | some a => if a.createdAt ≤ t.createdAt then some t else some a)
    none

end TransactionRepository

/-- Order placement request sent to the order-assurance gateway
(client/order_assurance.go `OrderRequest`). -/
structure OrderRequest where
  symbol : String
  price : Dec
  side : OrderSide
  amount : Dec
deriving DecidableEq, Repr

/-- Gateway response for a placement (`OrderResponse`). -/
structure OrderResponse where
  orderID : String
  status : String
deriving DecidableEq, Repr

/-- Gateway order-status response (client `OrderStatus`). -/
structure OrderStatus where
  orderID : String
  status : String
  filledAmount : Option Dec
  fillPrice : Option Dec
deriving DecidableEq, Repr

/-- The trading-engine service (service/grid_service.go `GridService`).
The order-assurance collaborator is modelled by function-valued fields; a Go
`error` result is `Except.error`.  `feeRate` is the decimal value
`decimal.NewFromFloat(tradingFee / 100)` that `ProcessSellFillNotification`
computes from the configured per-side trading fee percentage. -/
structure GridService where
  assurancePlaceOrder : OrderRequest → Except String OrderResponse
  assuranceGetOrderStatus : String → String → Except String (Option OrderStatus)
  feeRate : Dec

namespace GridService

open GridLevelRepository TransactionRepository

/-- `tryPlaceBuyOrder`: guarded `READY → PLACING_BUY`, then the gateway
call; on gateway failure revert to READY and record the ERROR row; on
success `PLACING_BUY → BUY_ACTIVE` with the order id, then a BUY/PLACED
audit row.  The second component lists the gateway placement calls made. -/
def tryPlaceBuyOrder (s : GridService) (now : Nat) (db : DB) (level : GridLevel) :
    DB × List OrderRequest :=
  let started := TryStartBuyOrder db level.id
  if started.1 = false then (started.2, [])
  else
    let req : OrderRequest :=
      { symbol := level.symbol, price := level.buyPrice,
        side := OrderSide.buy, amount := level.buyAmount }
    match s.assurancePlaceOrder req with
    | Except.error e =>
        let db1 := UpdateState started.2 level.id GridState.READY
        (RecordBuyError db1 now level.id level.symbol level.buyPrice
          "order_placement_failed" e, [req])
    | Except.ok resp =>
        let upd := UpdateBuyOrderPlaced started.2 level.id resp.orderID
        if upd.1 = false then (upd.2, [req])
        else
          (RecordBuyPlaced upd.2 now level.id level.symbol resp.orderID
            level.buyPrice level.buyAmount, [req])

/-- `tryPlaceSellOrder`: guarded `HOLDING → PLACING_SELL`, then the gateway
call; on failure revert to HOLDING and record the ERROR row; on success
`PLACING_SELL → SELL_ACTIVE` with the order id, then a SELL/PLACED row. -/
def tryPlaceSellOrder (s : GridService) (now : Nat) (db : DB) (level : GridLevel) :
    DB × List OrderRequest :=
  let started := TryStartSellOrder db level.id
  if started.1 = false then (started.2, [])
  else
    match level.filledAmount with
    | none => (UpdateState started.2 level.id GridState.HOLDING, [])
    | some fa =>
        let req : OrderRequest :=
          { symbol := level.symbol, price := level.sellPrice,
            side := OrderSide.sell, amount := fa }
        match s.assurancePlaceOrder req with
        | Except.error e =>
            let db1 := UpdateState started.2 level.id GridState.HOLDING
            (RecordSellError db1 now level.id level.symbol level.sellPrice
              "order_placement_failed" e, [req])
        | Except.ok resp =>
            let upd := UpdateSellOrderPlaced started.2 level.id resp.orderID
            if upd.1 = false then (upd.2, [req])
            else
              (RecordSellPlaced upd.2 now level.id level.symbol resp.orderID
                level.sellPrice fa, [req])

/-- `ProcessBuyFillNotification`: locate the level by `buy_order_id`; ignore
when absent or not BUY_ACTIVE; otherwise apply the guarded fill update,
record the BUY/FILLED row with `amount_usdt = filled_amount × fill_price`,
and eagerly attempt the sell placement when the refreshed level is HOLDING. -/
def ProcessBuyFillNotification (s : GridService) (now : Nat) (db : DB)
    (orderID : String) (filledAmount fillPrice : Dec) : DB :=
  match GetByBuyOrderID db orderID with
  | none => db
  | some level =>
      if level.state ≠ GridState.BUY_ACTIVE then db
      else
        let db1 := ProcessBuyFill db level.id filledAmount
        let amountUSDT := filledAmount * fillPrice
        let db2 := RecordBuyFilled db1 now level.id level.symbol orderID
          level.buyPrice fillPrice filledAmount amountUSDT
        match GetByID db2 level.id with
        | none => db2
        | some updatedLevel =>
            if updatedLevel.state = GridState.HOLDING then
              (s.tryPlaceSellOrder now db2 updatedLevel).1
            else db2

/-- `ProcessSellFillNotification`: locate the level by `sell_order_id`;
ignore when absent or not SELL_ACTIVE; fetch the last BUY/FILLED row, apply
the guarded sell-fill update, and record the SELL/FILLED row.  With a buy
row of positive notional the profit is
`sell − buy − (buy × feeRate + sell × feeRate)` and the percentage
`profit / buy × 100`; otherwise the zero values are recorded. -/
def ProcessSellFillNotification (s : GridService) (now : Nat) (db : DB)
    (orderID : String) (filledAmount fillPrice : Dec) : DB :=
  match GetBySellOrderID db orderID with
  | none => db
  | some level =>
      if level.state ≠ GridState.SELL_ACTIVE then db
      else
        let buyTx := GetLastBuyForLevel db level.id
        let db1 := ProcessSellFill db level.id
        let sellAmountUSDT := filledAmount * fillPrice
        match buyTx with
        | some bt =>
            match bt.amountUSDT with
            | some buyUSDT =>
                if 0 < buyUSDT then
                  let buyFee := buyUSDT * s.feeRate
                  let sellFee := sellAmountUSDT * s.feeRate
                  let profitUSDT := sellAmountUSDT - buyUSDT - (buyFee + sellFee)
                  let profitPct := profitUSDT / buyUSDT * 100
                  RecordSellFilled db1 now level.id level.symbol orderID
                    level.sellPrice fillPrice filledAmount sellAmountUSDT
                    bt.id profitUSDT profitPct
                else
                  RecordSellFilled db1 now level.id level.symbol orderID
                    level.sellPrice fillPrice filledAmount sellAmountUSDT 0 0 0
            | none =>
                RecordSellFilled db1 now level.id level.symbol orderID
                  level.sellPrice fillPrice filledAmount sellAmountUSDT 0 0 0
        | none =>
            RecordSellFilled db1 now level.id level.symbol orderID
              level.sellPrice fillPrice filledAmount sellAmountUSDT 0 0 0

/-- `checkAndUpdateOrderStatus` (service/grid_service.go, sweeper and
on-tick reconciliation): query the gateway status; not-found resets the
level; `filled` (with fill data) funnels into the webhook notification
handlers; `cancelled` resets the level; anything else is a no-op. -/
def checkAndUpdateOrderStatus (s : GridService) (now : Nat) (db : DB)
    (level : GridLevel) (orderID : String) (isBuy : Bool) : DB :=
  match s.assuranceGetOrderStatus level.symbol orderID with
  | Except.error _ => db
  | Except.ok none =>
      if isBuy then UpdateState db level.id GridState.READY
      else UpdateState db level.id GridState.HOLDING
  | Except.ok (some st) =>
      if st.status = "filled" then
        match st.filledAmount, st.fillPrice with
        | some amt, some fp =>
            if isBuy then s.ProcessBuyFillNotification now db orderID amt fp
            else s.ProcessSellFillNotification now db orderID amt fp
        | _, _ => db
      else if st.status = "cancelled" then
        if isBuy then UpdateState db level.id GridState.READY
        else UpdateState db level.id GridState.HOLDING
      else db

end GridService

/-- Decoded body of `POST /order-fill-notification`
(api/handlers.go `FillNotificationRequest`). -/
structure FillNotificationRequest where
  orderID : String
  symbol : String
  price : Dec
  side : String
  status : String
  filledAmount : Dec
  fillPrice : Dec
deriving DecidableEq, Repr

/-- Engine HTTP response: status code and the `status` field of the JSON
body (or the plain error text for non-200 responses). -/
structure HttpResult where
  code : Nat
  body : String
deriving DecidableEq, Repr

/-- `handleFillNotification` (api/handlers.go) after a successful JSON
decode: non-"filled" notifications are acknowledged as ignored before any
service call; "filled" dispatches on the side. -/
def handleFillNotification (s : GridService) (now : Nat) (db : DB)
    (req : FillNotificationRequest) : HttpResult × DB :=
  if req.status ≠ "filled" then ({ code := 200, body := "ignored" }, db)
  else if req.side = "buy" then
    ({ code := 200, body := "processed" },
      s.ProcessBuyFillNotification now db req.orderID req.filledAmount req.fillPrice)
  else if req.side = "sell" then
    ({ code := 200, body := "processed" },
      s.ProcessSellFillNotification now db req.orderID req.filledAmount req.fillPrice)
  else ({ code := 400, body := "Invalid side" }, db)

/-- Venue trading rules for one symbol (exchange/binance_client.go
`SymbolInfo`). -/
structure SymbolInfo where
  minQty : Dec
  maxQty : Dec
  stepSize : Dec
  minPrice : Dec
  maxPrice : Dec
  tickSize : Dec
  minNotional : Dec
deriving DecidableEq, Repr

namespace BinanceClient

/-- shopspring `Round(0)`: round to the nearest integer, half away from
zero.  (`Rat.floor` is the executable floor on `ℚ`.) -/
def decRoundHalfAway (q : Dec) : Dec :=
  if 0 ≤ q then ((Rat.floor (q + 1 / 2) : Int) : Dec)
  else ((-Rat.floor (-q + 1 / 2) : Int) : Dec)

/-- `roundToStepSize`: quantity / step, rounded to the nearest integer,
times step. -/
def roundToStepSize (quantity stepSize : Dec) : Dec :=
  if stepSize = 0 then quantity else decRoundHalfAway (quantity / stepSize) * stepSize

/-- `roundUpToStepSize`: quantity / step, rounded up, times step.
(`Rat.ceil` is the executable ceiling on `ℚ`.) -/
def roundUpToStepSize (quantity stepSize : Dec) : Dec :=
  if stepSize = 0 then quantity
  else ((Rat.ceil (quantity / stepSize) : Int) : Dec) * stepSize

/-- `roundToTickSize`: price / tick, rounded to the nearest integer, times
tick. -/
def roundToTickSize (price tickSize : Dec) : Dec :=
  if tickSize = 0 then price else decRoundHalfAway (price / tickSize) * tickSize

/-- The quantization prefix of `BinanceClient.PlaceOrder` (everything before
the idempotency-cache lookup and the network call): round the price to the
tick size and the quantity to the step size; if the notional is below the
venue minimum, bump the quantity to the next step above
`minNotional × 1.01 / price` (the `side` argument is not consulted); raise
the quantity to `minQty` if still below it; fail if above `maxQty`.
Returns the adjusted `(price, quantity)`. -/
def placeOrderQuantize (info : SymbolInfo) (side : OrderSide) (price quantity : Dec) :
    Except String (Dec × Dec) :=
  let price1 := roundToTickSize price info.tickSize
  let q1 := roundToStepSize quantity info.stepSize
  let q2 :=
    if price1 * q1 < info.minNotional then
      roundUpToStepSize (info.minNotional * (101 / 100) / price1) info.stepSize
    else q1
  let q3 := if q2 < info.minQty then info.minQty else q2
  if info.maxQty < q3 then Except.error "required quantity exceeds maximum allowed"
  else Except.ok (price1, q3)

/-- `cacheExpiry`: 5 seconds, in milliseconds. -/
def cacheExpiryMillis : Nat := 5000

/-- The in-memory idempotency cache of the gateway's exchange client: the
order cache keyed by the string cache key, and the single global
`lastCacheUpdate` timestamp (milliseconds). -/
structure BinanceCache where
  orderCache : List (String × Nat)
  lastCacheUpdate : Nat
deriving DecidableEq, Repr

/-- `getFromCache`: the whole cache is treated as expired once more than
`cacheExpiry` has elapsed since `lastCacheUpdate`; otherwise look the key
up (entries are never evicted individually). -/
def getFromCache (c : BinanceCache) (now : Nat) (key : String) : Option Nat :=
  if cacheExpiryMillis < now - c.lastCacheUpdate then none
  else (c.orderCache.find? (fun p => p.1 == key)).map (fun p => p.2)

/-- `storeInCache`: upsert the key and refresh the global
`lastCacheUpdate`. -/
def storeInCache (c : BinanceCache) (now : Nat) (key : String) (orderID : Nat) :
    BinanceCache :=
  { orderCache := (key, orderID) :: c.orderCache, lastCacheUpdate := now }

end BinanceClient

namespace OrderService

/-- The fixed symbol list probed by the gateway's id-only status lookup. -/
def commonProbeSymbols : List String := ["ETH", "BTC", "BNB", "SOL", "DOGE"]

/-- `OrderService.GetOrderStatus(orderID)` (order-assurance): try the common
trading symbols in order; return the first probe that succeeds with a
non-nil status; otherwise the error "order not found".  `fetchOrderStatus`
models the per-symbol venue lookup, with both the error and the
order-not-found outcomes folded into `none` (the loop skips either). -/
def GetOrderStatus (fetchOrderStatus : String → String → Option OrderStatus)
    (orderID : String) : Except String OrderStatus :=
  match commonProbeSymbols.findSome? (fun sym => fetchOrderStatus sym orderID) with
  | some status => Except.ok status
  | none => Except.error "order not found"

end OrderService

/-! ## Claim C4: strict trigger inequalities -/

/-- C4: for every enabled level and every trigger price, a buy is attempted
only when the price is strictly greater than `buy_price` and a sell only
when it is strictly less than `sell_price`; in particular a price equal to
`buy_price` does not trigger a buy and one equal to `sell_price` does not
trigger a sell. -/
theorem C4_strict_trigger_inequalities (g : GridLevel) (p : Dec) :
    (g.CanPlaceBuy p = true → g.buyPrice < p) ∧
    (g.CanPlaceSell p = true → p < g.sellPrice) ∧
    g.CanPlaceBuy g.buyPrice = false ∧
    g.CanPlaceSell g.sellPrice = false := by
  refine ⟨?_, ?_, ?_, ?_⟩
  · intro h
    simp only [GridLevel.CanPlaceBuy, Bool.and_eq_true, decide_eq_true_eq] at h
    exact h.2
  · intro h
    simp only [GridLevel.CanPlaceSell, Bool.and_eq_true, decide_eq_true_eq] at h
    exact h.1.2
  · simp [GridLevel.CanPlaceBuy]
  · simp [GridLevel.CanPlaceSell]

/-- A concrete READY, enabled level used to witness C4. -/
def c4Level : GridLevel :=
  { id := 1, symbol := "ETH", buyPrice := 3600, sellPrice := 3800,
    buyAmount := 1000, filledAmount := none, state := GridState.READY,
    buyOrderID := none, sellOrderID := none, enabled := true }

theorem C4_strict_trigger_inequalities_witness :
    c4Level.CanPlaceBuy 3650 = true ∧ c4Level.buyPrice < 3650 ∧
    c4Level.CanPlaceBuy 3600 = false :=
  ⟨by decide, (C4_strict_trigger_inequalities c4Level 3650).1 (by decide),
    (C4_strict_trigger_inequalities c4Level 3600).2.2.1⟩

/-! ## Claim C9: non-"filled" fill notifications are ignored -/

/-- C9: a decoded `/order-fill-notification` request whose status is not
"filled" is answered 200 with body status "ignored", and the store is
untouched: no level changes state and no audit row is written. -/
theorem C9_nonfilled_notification_ignored (s : GridService) (now : Nat) (db : DB)
    (req : FillNotificationRequest) (h : req.status ≠ "filled") :
    handleFillNotification s now db req = ({ code := 200, body := "ignored" }, db) := by
  simp [handleFillNotification, h]

/-- A stub order-assurance collaborator whose calls all fail; used by
witnesses that must exhibit a concrete `GridService`. -/
def stubService : GridService :=
  { assurancePlaceOrder := fun _ => Except.error "unavailable",
    assuranceGetOrderStatus := fun _ _ => Except.error "unavailable",
    feeRate := 1 / 1000 }

/-- A "cancelled" notification used to witness C9. -/
def c9Request : FillNotificationRequest :=
  { orderID := "123", symbol := "ETH", price := 3600, side := "buy",
    status := "canceled", filledAmount := 1 / 4, fillPrice := 3600 }

theorem C9_nonfilled_notification_ignored_witness :
    c9Request.status ≠ "filled" ∧
    handleFillNotification stubService 0 { levels := [c4Level], txs := [] } c9Request
      = ({ code := 200, body := "ignored" }, { levels := [c4Level], txs := [] }) :=
  ⟨by decide,
    C9_nonfilled_notification_ignored stubService 0 { levels := [c4Level], txs := [] }
      c9Request (by decide)⟩

/-! ## Claim C10: id-only status lookup probes a fixed symbol list -/

/-- C10: the gateway's id-only `GetOrderStatus` probes ETH, BTC, BNB, SOL,
DOGE in that order and returns the first non-nil probe result; when every
probe in the list misses, it returns the error "order not found" even when
the order exists on a symbol outside the list. -/
theorem C10_fixed_symbol_probe (fetch : String → String → Option OrderStatus)
    (orderID : String) :
    (∀ otherSym st, (∀ sym ∈ OrderService.commonProbeSymbols, fetch sym orderID = none) →
        otherSym ∉ OrderService.commonProbeSymbols → fetch otherSym orderID = some st →
        OrderService.GetOrderStatus fetch orderID = Except.error "order not found") ∧
    (∀ st, fetch "ETH" orderID = some st →
        OrderService.GetOrderStatus fetch orderID = Except.ok st) ∧
    (∀ st, fetch "ETH" orderID = none → fetch "BTC" orderID = some st →
        OrderService.GetOrderStatus fetch orderID = Except.ok st) ∧
    (∀ st, fetch "ETH" orderID = none → fetch "BTC" orderID = none →
        fetch "BNB" orderID = some st →
        OrderService.GetOrderStatus fetch orderID = Except.ok st) ∧
    (∀ st, fetch "ETH" orderID = none → fetch "BTC" orderID = none →
        fetch "BNB" orderID = none → fetch "SOL" orderID = some st →
        OrderService.GetOrderStatus fetch orderID = Except.ok st) ∧
    (∀ st, fetch "ETH" orderID = none → fetch "BTC" orderID = none →
        fetch "BNB" orderID = none → fetch "SOL" orderID = none →
        fetch "DOGE" orderID = some st →
        OrderService.GetOrderStatus fetch orderID = Except.ok st) := by
  refine ⟨?_, ?_, ?_, ?_, ?_, ?_⟩
  · intro otherSym st hmiss _ _
    have h1 := hmiss "ETH" (by simp [OrderService.commonProbeSymbols])
    have h2 := hmiss "BTC" (by simp [OrderService.commonProbeSymbols])
    have h3 := hmiss "BNB" (by simp [OrderService.commonProbeSymbols])
    have h4 := hmiss "SOL" (by simp [OrderService.commonProbeSymbols])
    have h5 := hmiss "DOGE" (by simp [OrderService.commonProbeSymbols])
    simp [OrderService.GetOrderStatus, OrderService.commonProbeSymbols,
      List.findSome?, h1, h2, h3, h4, h5]
  · intro st h1
    simp [OrderService.GetOrderStatus, OrderService.commonProbeSymbols,
      List.findSome?, h1]
  · intro st h1 h2
    simp [OrderService.GetOrderStatus, OrderService.commonProbeSymbols,
      List.findSome?, h1, h2]
  · intro st h1 h2 h3
    simp [OrderService.GetOrderStatus, OrderService.commonProbeSymbols,
      List.findSome?, h1, h2, h3]
  · intro st h1 h2 h3 h4
    simp [OrderService.GetOrderStatus, OrderService.commonProbeSymbols,
      List.findSome?, h1, h2, h3, h4]
  · intro st h1 h2 h3 h4 h5
    simp [OrderService.GetOrderStatus, OrderService.commonProbeSymbols,
      List.findSome?, h1, h2, h3, h4, h5]

/-- The status row returned by the C10 witness venue. -/
def c10Status : OrderStatus :=
  { orderID := "42", status := "filled", filledAmount := some 5, fillPrice := some 2 }

/-- A venue on which order "42" exists only on ADA; used to witness C10. -/
def c10Fetch : String → String → Option OrderStatus := fun sym oid =>
  if sym = "ADA" ∧ oid = "42" then some c10Status else none

theorem C10_fixed_symbol_probe_witness :
    (∀ sym ∈ OrderService.commonProbeSymbols, c10Fetch sym "42" = none) ∧
    c10Fetch "ADA" "42" = some c10Status ∧
    OrderService.GetOrderStatus c10Fetch "42" = Except.error "order not found" :=
  ⟨by decide, by decide,
    (C10_fixed_symbol_probe c10Fetch "42").1 "ADA" c10Status
      (by decide) (by decide) (by decide)⟩

/-! ## Claim C8: idempotency-cache expiry is global, not per entry -/

/-- C8 counterexample: one order is stored under key "A" at t = 0 ms and a
second order under key "B" at t = 299 000 ms.  A retry for key "A" at
t = 300 000 ms — 300 s after its original store, far beyond the 5 s expiry
and the 5-minute stuck threshold — still returns the cached order, because
the later store refreshed the single global `lastCacheUpdate`.  This
refutes the claim that a retry more than 5 s after the original store never
reuses the cached order id. -/
theorem C8_counterexample :
    BinanceClient.cacheExpiryMillis < 300000 - 0 ∧
    BinanceClient.getFromCache
      (BinanceClient.storeInCache
        (BinanceClient.storeInCache { orderCache := [], lastCacheUpdate := 0 } 0 "A" 111)
        299000 "B" 222)
      300000 "A" = some 111 := by
  constructor
  · decide
  · decide

/-- C8 (amended): the cache expires globally: `getFromCache` returns no
order for any key once more than 5 s (the configured `cacheExpiry`) has
elapsed since `lastCacheUpdate`, i.e. since the most recent store of any
order; a retried place call therefore bypasses the cache only when more
than 5 s have passed since the most recent store, not necessarily since its
own original store. -/
theorem C8_cache_global_expiry (c : BinanceClient.BinanceCache) (now : Nat)
    (key : String) (h : c.lastCacheUpdate + BinanceClient.cacheExpiryMillis < now) :
    BinanceClient.getFromCache c now key = none := by
  have hgt : BinanceClient.cacheExpiryMillis < now - c.lastCacheUpdate := by omega
  simp [BinanceClient.getFromCache, hgt]

theorem C8_cache_global_expiry_witness :
    (0 : Nat) + BinanceClient.cacheExpiryMillis < 300000 ∧
    BinanceClient.getFromCache
      (BinanceClient.storeInCache { orderCache := [], lastCacheUpdate := 0 } 0 "A" 111)
      300000 "A" = none :=
  ⟨by decide,
    C8_cache_global_expiry
      (BinanceClient.storeInCache { orderCache := [], lastCacheUpdate := 0 } 0 "A" 111)
      300000 "A" (by decide)⟩

/-! ## Claim C6: min-notional round-up is applied on both sides -/

/-- The default venue rules hardcoded in `getSymbolInfo` (binance_client.go):
step 0.00001, tick 0.01, min notional 10. -/
def c6Info : SymbolInfo :=
  { minQty := 1 / 100000, maxQty := 10000000, stepSize := 1 / 100000,
    minPrice := 1 / 100, maxPrice := 1000000, tickSize := 1 / 100,
    minNotional := 10 }

/-- C6 counterexample: a SELL of quantity 0.5 at price 10 has notional 5,
below the venue minimum of 10; `PlaceOrder`'s quantization bumps the
quantity to 1.01 — strictly above the rounded input quantity — and the
placement proceeds instead of failing, contradicting the claim that on the
sell side the quantity is never increased and the placement fails. -/
theorem C6_counterexample :
    BinanceClient.placeOrderQuantize c6Info OrderSide.sell 10 (1 / 2)
      = Except.ok (10, 101 / 100) ∧
    BinanceClient.roundToStepSize (1 / 2) c6Info.stepSize < 101 / 100 := by
  constructor
  · rfl
  · decide

/-- C6 (amended): `PlaceOrder`'s quantization never consults the order
side: when the rounded notional is below the venue minimum, the quantity is
rounded up to the next step above `minNotional × 1.01 / price` for buy and
sell orders alike (so a sell quantity can be raised above the rounded
`filled_amount`), and the placement proceeds whenever the bumped quantity
is within the venue's quantity bounds. -/
theorem C6_min_notional_bump_side_blind (info : SymbolInfo) (side : OrderSide)
    (price quantity : Dec) :
    BinanceClient.placeOrderQuantize info side price quantity
      = BinanceClient.placeOrderQuantize info OrderSide.buy price quantity ∧
    (BinanceClient.roundToTickSize price info.tickSize *
        BinanceClient.roundToStepSize quantity info.stepSize < info.minNotional →
      ¬ BinanceClient.roundUpToStepSize
          (info.minNotional * (101 / 100) / BinanceClient.roundToTickSize price info.tickSize)
          info.stepSize < info.minQty →
      ¬ info.maxQty < BinanceClient.roundUpToStepSize
          (info.minNotional * (101 / 100) / BinanceClient.roundToTickSize price info.tickSize)
          info.stepSize →
      BinanceClient.placeOrderQuantize info side price quantity
        = Except.ok (BinanceClient.roundToTickSize price info.tickSize,
            BinanceClient.roundUpToStepSize
              (info.minNotional * (101 / 100) / BinanceClient.roundToTickSize price info.tickSize)
              info.stepSize)) := by
  constructor
  · rfl
  · intro hlow hmin hmax
    simp [BinanceClient.placeOrderQuantize, hlow, if_neg hmin, if_neg hmax]

theorem C6_min_notional_bump_side_blind_witness :
    BinanceClient.roundToTickSize 10 c6Info.tickSize *
        BinanceClient.roundToStepSize (1 / 2) c6Info.stepSize < c6Info.minNotional ∧
    BinanceClient.placeOrderQuantize c6Info OrderSide.sell 10 (1 / 2)
      = Except.ok (BinanceClient.roundToTickSize 10 c6Info.tickSize,
          BinanceClient.roundUpToStepSize
            (c6Info.minNotional * (101 / 100) / BinanceClient.roundToTickSize 10 c6Info.tickSize)
            c6Info.stepSize) :=
  ⟨by decide,
    (C6_min_notional_bump_side_blind c6Info OrderSide.sell 10 (1 / 2)).2
      (by decide) (by decide) (by decide)⟩

/-! ## Shared list helpers -/

/-- `find?` returns a designated element when it matches and every matching
member equals it. -/
theorem find?_eq_some_unique {α : Type} (p : α → Bool) (l : List α) (a : α)
    (ha : a ∈ l) (hpa : p a = true) (huniq : ∀ b ∈ l, p b = true → b = a) :
    l.find? p = some a := by
  induction l with
  | nil => cases ha
  | cons x xs ih =>
      by_cases hpx : p x = true
      · have hx : x = a := huniq x (List.mem_cons_self x xs) hpx
        subst hx
        exact List.find?_cons_of_pos _ hpx
      · rcases List.mem_cons.mp ha with h | h
        · subst h; exact absurd hpa hpx
        · rw [List.find?_cons_of_neg _ hpx]
          exact ih h (fun b hb hpb => huniq b (List.mem_cons_of_mem _ hb) hpb)

/-- Number of FILLED rows in the audit log. -/
def filledCount (db : DB) : Nat :=
  (db.txs.filter (fun t => decide (t.status = TransactionStatus.FILLED))).length

/-- Appending one FILLED row and non-FILLED rows increments `filledCount`
by exactly one. -/
theorem filledCount_append (db db' : DB) (row : Transaction) (rest : List Transaction)
    (htxs : db'.txs = db.txs ++ row :: rest)
    (hrow : row.status = TransactionStatus.FILLED)
    (hrest : ∀ t ∈ rest, t.status ≠ TransactionStatus.FILLED) :
    filledCount db' = filledCount db + 1 := by
  unfold filledCount
  rw [htxs, List.filter_append, List.length_append, List.filter_cons]
  have hrest0 : rest.filter (fun t => decide (t.status = TransactionStatus.FILLED)) = [] := by
    rw [List.filter_eq_nil]
    intro t ht
    simpa using hrest t ht
  simp [hrow, hrest0]

/-! ## Claim C1: SELL/FILLED profit formula -/

/-- C1: every sell fill processed by `ProcessSellFillNotification` whose
level has a last BUY/FILLED audit row with positive `amount_usdt` appends a
single SELL/FILLED row whose `profit_usdt` equals
`sell_notional − buy_notional − (buy_notional + sell_notional) × fee_rate`
with `sell_notional = filled_amount × fill_price` and `buy_notional` the
buy row's `amount_usdt`, and whose `related_buy_id` is that buy row. -/
theorem C1_sell_fill_profit (s : GridService) (now : Nat) (db : DB)
    (orderID : String) (filledAmount fillPrice : Dec) (level : GridLevel)
    (bt : Transaction) (buyNotional : Dec)
    (hlevel : GridLevelRepository.GetBySellOrderID db orderID = some level)
    (hstate : level.state = GridState.SELL_ACTIVE)
    (hbt : TransactionRepository.GetLastBuyForLevel db level.id = some bt)
    (hamt : bt.amountUSDT = some buyNotional)
    (hpos : 0 < buyNotional) :
    ∃ row, (s.ProcessSellFillNotification now db orderID filledAmount fillPrice).txs
        = db.txs ++ [row] ∧
      row.side = TransactionSide.SELL ∧
      row.status = TransactionStatus.FILLED ∧
      row.gridLevelID = level.id ∧
      row.relatedBuyID = some bt.id ∧
      row.amountUSDT = some (filledAmount * fillPrice) ∧
      row.profitUSDT = some (filledAmount * fillPrice - buyNotional
        - (buyNotional + filledAmount * fillPrice) * s.feeRate) := by
  unfold GridService.ProcessSellFillNotification
  simp only [hlevel, hstate, hbt, hamt, ne_eq, not_true_eq_false, if_false,
    if_pos hpos, ite_false]
  refine ⟨_, rfl, rfl, rfl, rfl, rfl, rfl, ?_⟩
  have : filledAmount * fillPrice - buyNotional
      - (buyNotional * s.feeRate + filledAmount * fillPrice * s.feeRate)
      = filledAmount * fillPrice - buyNotional
      - (buyNotional + filledAmount * fillPrice) * s.feeRate := by ring
  rw [this]

/-- A SELL_ACTIVE level with an outstanding sell order; C1 witness data. -/
def c1Level : GridLevel :=
  { id := 1, symbol := "ETH", buyPrice := 3600, sellPrice := 3800,
    buyAmount := 1000, filledAmount := some (1 / 4),
    state := GridState.SELL_ACTIVE, buyOrderID := none,
    sellOrderID := some "S1", enabled := true }

/-- The BUY/FILLED audit row that opened the C1 witness cycle. -/
def c1BuyTx : Transaction :=
  { id := 7, gridLevelID := 1, symbol := "ETH",
    side := TransactionSide.BUY, status := TransactionStatus.FILLED,
    orderID := some "B1", targetPrice := 3600, executedPrice := some 3598,
    amountCoin := some (1 / 4), amountUSDT := some 1000,
    relatedBuyID := none, profitUSDT := none, profitPct := none,
    errorCode := none, errorMsg := none, createdAt := 5 }

/-- C1 witness store. -/
def c1DB : DB := { levels := [c1Level], txs := [c1BuyTx] }

theorem C1_sell_fill_profit_witness :
    GridLevelRepository.GetBySellOrderID c1DB "S1" = some c1Level ∧
    TransactionRepository.GetLastBuyForLevel c1DB c1Level.id = some c1BuyTx ∧
    (0 : Dec) < 1000 ∧
    (∃ row, (stubService.ProcessSellFillNotification 99 c1DB "S1" (1 / 4) 3802).txs
        = c1DB.txs ++ [row] ∧
      row.side = TransactionSide.SELL ∧
      row.status = TransactionStatus.FILLED ∧
      row.gridLevelID = c1Level.id ∧
      row.relatedBuyID = some c1BuyTx.id ∧
      row.amountUSDT = some ((1 / 4) * 3802) ∧
      row.profitUSDT = some ((1 / 4) * 3802 - 1000
        - (1000 + (1 / 4) * 3802) * stubService.feeRate)) :=
  ⟨by decide, by decide, by decide,
    C1_sell_fill_profit stubService 99 c1DB "S1" (1 / 4) 3802 c1Level c1BuyTx 1000
      (by decide) (by decide) (by decide) (by decide) (by decide)⟩

/-! ## Claim C5: guarded conditional-update order starts -/

/-- C5: `TryStartBuyOrder` succeeds (and moves the row to PLACING_BUY)
exactly when the row is READY and enabled; `TryStartSellOrder` succeeds
(and moves the row to PLACING_SELL) exactly when the row is HOLDING,
enabled and has a `filled_amount`; on a guard miss the operation returns
false, the store is unchanged and the service makes no gateway call for
that level. -/
theorem C5_guarded_order_start (s : GridService) (now : Nat) (db : DB)
    (level : GridLevel)
    (hfind : db.levels.find? (fun x => decide (x.id = level.id)) = some level)
    (hnodup : (db.levels.map GridLevel.id).Nodup) :
    ((GridLevelRepository.TryStartBuyOrder db level.id).1 = true ↔
        (level.state = GridState.READY ∧ level.enabled = true)) ∧
    (level.state = GridState.READY → level.enabled = true →
        (GridLevelRepository.TryStartBuyOrder db level.id).2.levels
          = db.levels.map (fun x => if x.id = level.id
              then { x with state := GridState.PLACING_BUY } else x)) ∧
    (¬ (level.state = GridState.READY ∧ level.enabled = true) →
        (GridLevelRepository.TryStartBuyOrder db level.id).2 = db ∧
        s.tryPlaceBuyOrder now db level = (db, [])) ∧
    ((GridLevelRepository.TryStartSellOrder db level.id).1 = true ↔
        (level.state = GridState.HOLDING ∧ level.enabled = true ∧
          level.filledAmount ≠ none)) ∧
    (level.state = GridState.HOLDING → level.enabled = true →
        level.filledAmount ≠ none →
        (GridLevelRepository.TryStartSellOrder db level.id).2.levels
          = db.levels.map (fun x => if x.id = level.id
              then { x with state := GridState.PLACING_SELL } else x)) ∧
    (¬ (level.state = GridState.HOLDING ∧ level.enabled = true ∧
          level.filledAmount ≠ none) →
        (GridLevelRepository.TryStartSellOrder db level.id).2 = db ∧
        s.tryPlaceSellOrder now db level = (db, [])) := by
  have hmem : level ∈ db.levels := List.mem_of_find?_eq_some hfind
  have huniq : ∀ x ∈ db.levels, x.id = level.id → x = level :=
    fun x hx he => List.inj_on_of_nodup_map hnodup hx hmem he
  refine ⟨?_, ?_, ?_, ?_, ?_, ?_⟩
  · unfold GridLevelRepository.TryStartBuyOrder
    by_cases hany : db.levels.any (fun l => decide (l.id = level.id ∧
        l.state = GridState.READY ∧ l.enabled = true)) = true
    · rw [if_pos hany]
      simp only [List.any_eq_true, decide_eq_true_eq] at hany
      obtain ⟨x, hx, hxid, hxst, hxen⟩ := hany
      have hx' := huniq x hx hxid
      subst hx'
      simp [hxst, hxen]
    · rw [if_neg hany]
      simp only [List.any_eq_true, decide_eq_true_eq, not_exists, not_and] at hany
      constructor
      · intro h; exact absurd h (by simp)
      · rintro ⟨hst, hen⟩
        exact absurd hen (hany level hmem rfl hst)
  · intro hst hen
    have hany : db.levels.any (fun l => decide (l.id = level.id ∧
        l.state = GridState.READY ∧ l.enabled = true)) = true := by
      simp only [List.any_eq_true, decide_eq_true_eq]
      exact ⟨level, hmem, rfl, hst, hen⟩
    unfold GridLevelRepository.TryStartBuyOrder
    rw [if_pos hany]
    refine List.map_congr_left (fun x hx => ?_)
    by_cases hid : x.id = level.id
    · have hx' := huniq x hx hid
      subst hx'
      simp [hst, hen]
    · simp [hid]
  · intro hguard
    have hany : ¬ db.levels.any (fun l => decide (l.id = level.id ∧
        l.state = GridState.READY ∧ l.enabled = true)) = true := by
      simp only [List.any_eq_true, decide_eq_true_eq, not_exists]
      rintro x ⟨hx, hxid, hxst, hxen⟩
      have hx' := huniq x hx hxid
      subst hx'
      exact hguard ⟨hxst, hxen⟩
    have hts : GridLevelRepository.TryStartBuyOrder db level.id = (false, db) := by
      unfold GridLevelRepository.TryStartBuyOrder
      rw [if_neg hany]
    refine ⟨by rw [hts], ?_⟩
    unfold GridService.tryPlaceBuyOrder
    rw [hts]
    simp
  · unfold GridLevelRepository.TryStartSellOrder
    by_cases hany : db.levels.any (fun l => decide (l.id = level.id ∧
        l.state = GridState.HOLDING ∧ l.enabled = true ∧ l.filledAmount ≠ none)) = true
    · rw [if_pos hany]
      simp only [List.any_eq_true, decide_eq_true_eq] at hany
      obtain ⟨x, hx, hxid, hxst, hxen, hxfa⟩ := hany
      have hx' := huniq x hx hxid
      subst hx'
      simp [hxst, hxen, hxfa]
    · rw [if_neg hany]
      simp only [List.any_eq_true, decide_eq_true_eq, not_exists, not_and] at hany
      constructor
      · intro h; exact absurd h (by simp)
      · rintro ⟨hst, hen, hfa⟩
        exact absurd hfa (hany level hmem rfl hst hen)
  · intro hst hen hfa
    have hany : db.levels.any (fun l => decide (l.id = level.id ∧
        l.state = GridState.HOLDING ∧ l.enabled = true ∧ l.filledAmount ≠ none)) = true := by
      simp only [List.any_eq_true, decide_eq_true_eq]
      exact ⟨level, hmem, rfl, hst, hen, hfa⟩
    unfold GridLevelRepository.TryStartSellOrder
    rw [if_pos hany]
    refine List.map_congr_left (fun x hx => ?_)
    by_cases hid : x.id = level.id
    · have hx' := huniq x hx hid
      subst hx'
      simp [hst, hen, hfa]
    · simp [hid]
  · intro hguard
    have hany : ¬ db.levels.any (fun l => decide (l.id = level.id ∧
        l.state = GridState.HOLDING ∧ l.enabled = true ∧ l.filledAmount ≠ none)) = true := by
      simp only [List.any_eq_true, decide_eq_true_eq, not_exists]
      rintro x ⟨hx, hxid, hxst, hxen, hxfa⟩
      have hx' := huniq x hx hxid
      subst hx'
      exact hguard ⟨hxst, hxen, hxfa⟩
    have hts : GridLevelRepository.TryStartSellOrder db level.id = (false, db) := by
      unfold GridLevelRepository.TryStartSellOrder
      rw [if_neg hany]
    refine ⟨by rw [hts], ?_⟩
    unfold GridService.tryPlaceSellOrder
    rw [hts]
    simp

/-- A disabled READY level; C5 witness data (guard miss on both sides). -/
def c5Disabled : GridLevel :=
  { id := 2, symbol := "ETH", buyPrice := 3400, sellPrice := 3600,
    buyAmount := 1000, filledAmount := none, state := GridState.READY,
    buyOrderID := none, sellOrderID := none, enabled := false }

/-- C5 witness store: one enabled READY level and one disabled level. -/
def c5DB : DB := { levels := [c4Level, c5Disabled], txs := [] }

theorem C5_guarded_order_start_witness :
    c5DB.levels.find? (fun x => decide (x.id = c5Disabled.id)) = some c5Disabled ∧
    ¬ (c5Disabled.state = GridState.READY ∧ c5Disabled.enabled = true) ∧
    ((GridLevelRepository.TryStartBuyOrder c5DB c5Disabled.id).2 = c5DB ∧
      stubService.tryPlaceBuyOrder 0 c5DB c5Disabled = (c5DB, [])) :=
  ⟨by decide, by decide,
    (C5_guarded_order_start stubService 0 c5DB c5Disabled (by decide) (by decide)).2.2.1
      (by decide)⟩

/-! ## Claim C7: gateway placement failure handling -/

/-- C7 counterexample: with a gateway that always fails with the same
message, two failed buy placements for the same level 1800 s apart produce
only ONE ERROR audit row: the second failure still reverts the level but
appends nothing, because an identical ERROR row (same level, side, target
price and message) was recorded within the preceding hour.  This refutes
the claim that every placement failure appends an ERROR audit row. -/
theorem C7_counterexample :
    (stubService.tryPlaceBuyOrder 0 { levels := [c4Level], txs := [] } c4Level).1.txs.length = 1 ∧
    (stubService.tryPlaceBuyOrder 1800
        (stubService.tryPlaceBuyOrder 0 { levels := [c4Level], txs := [] } c4Level).1
        c4Level).2 ≠ [] ∧
    (stubService.tryPlaceBuyOrder 1800
        (stubService.tryPlaceBuyOrder 0 { levels := [c4Level], txs := [] } c4Level).1
        c4Level).1.txs
      = (stubService.tryPlaceBuyOrder 0 { levels := [c4Level], txs := [] } c4Level).1.txs := by
  refine ⟨by decide, by decide, by decide⟩

/-- C7 (amended): when a gateway placement call fails for a level, the
engine reverts the level's state (PLACING_BUY back to READY, PLACING_SELL
back to HOLDING) and appends one ERROR audit row with error code
`order_placement_failed` — unless an identical ERROR row (same level, side,
target price and message) was recorded within the preceding hour, in which
case the revert happens and no row is appended; no other transition and no
other audit row results from the failure. -/
theorem C7_placement_failure_revert (s : GridService) (now : Nat) (db : DB)
    (level : GridLevel) (e : String) :
    (level ∈ db.levels → level.state = GridState.READY → level.enabled = true →
      s.assurancePlaceOrder { symbol := level.symbol, price := level.buyPrice, side := OrderSide.buy, amount := level.buyAmount } = Except.error e →
      (s.tryPlaceBuyOrder now db level).1.levels
          = db.levels.map (fun x => if x.id = level.id
              then { x with state := GridState.READY } else x) ∧
      (∃ rows, (s.tryPlaceBuyOrder now db level).1.txs = db.txs ++ rows ∧
        rows.length ≤ 1 ∧
        (∀ r ∈ rows, r.status = TransactionStatus.ERROR ∧
          r.errorCode = some "order_placement_failed" ∧ r.errorMsg = some e ∧
          r.gridLevelID = level.id ∧ r.side = TransactionSide.BUY) ∧
        (TransactionRepository.hasRecentIdenticalError db.txs now level.id
            level.symbol TransactionSide.BUY level.buyPrice e = false →
          rows.length = 1))) ∧
    (level ∈ db.levels → level.state = GridState.HOLDING → level.enabled = true →
      ∀ fa, level.filledAmount = some fa →
      s.assurancePlaceOrder { symbol := level.symbol, price := level.sellPrice, side := OrderSide.sell, amount := fa } = Except.error e →
      (s.tryPlaceSellOrder now db level).1.levels
          = db.levels.map (fun x => if x.id = level.id
              then { x with state := GridState.HOLDING } else x) ∧
      (∃ rows, (s.tryPlaceSellOrder now db level).1.txs = db.txs ++ rows ∧
        rows.length ≤ 1 ∧
        (∀ r ∈ rows, r.status = TransactionStatus.ERROR ∧
          r.errorCode = some "order_placement_failed" ∧ r.errorMsg = some e ∧
          r.gridLevelID = level.id ∧ r.side = TransactionSide.SELL) ∧
        (TransactionRepository.hasRecentIdenticalError db.txs now level.id
            level.symbol TransactionSide.SELL level.sellPrice e = false →
          rows.length = 1))) := by
  constructor
  · intro hmem hst hen herr
    have hany : db.levels.any (fun l => decide (l.id = level.id ∧
        l.state = GridState.READY ∧ l.enabled = true)) = true := by
      simp only [List.any_eq_true, decide_eq_true_eq]
      exact ⟨level, hmem, rfl, hst, hen⟩
    have hts : GridLevelRepository.TryStartBuyOrder db level.id
        = (true, { db with levels := db.levels.map (fun l =>
            if l.id = level.id ∧ l.state = GridState.READY ∧ l.enabled = true then
              { l with state := GridState.PLACING_BUY } else l) }) := by
      unfold GridLevelRepository.TryStartBuyOrder
      rw [if_pos hany]
    unfold GridService.tryPlaceBuyOrder
    rw [hts]
    dsimp only
    rw [herr]
    constructor
    · show (TransactionRepository.RecordBuyError (GridLevelRepository.UpdateState _ _ _)
          now level.id level.symbol level.buyPrice "order_placement_failed" e).levels = _
      have hrec : ∀ d : DB, (TransactionRepository.RecordBuyError d now level.id
          level.symbol level.buyPrice "order_placement_failed" e).levels = d.levels := by
        intro d
        unfold TransactionRepository.RecordBuyError TransactionRepository.recordError
        split <;> rfl
      rw [hrec]
      unfold GridLevelRepository.UpdateState
      show (db.levels.map _).map _ = _
      rw [List.map_map]
      refine List.map_congr_left (fun x _ => ?_)
      by_cases hid : x.id = level.id
      · by_cases hg : x.state = GridState.READY ∧ x.enabled = true
        · simp [hid, hg.1, hg.2]
        · simp [hid, hg]
      · simp [hid]
    · show ∃ rows, (TransactionRepository.RecordBuyError (GridLevelRepository.UpdateState _ _ _)
          now level.id level.symbol level.buyPrice "order_placement_failed" e).txs
            = db.txs ++ rows ∧ _
      unfold TransactionRepository.RecordBuyError TransactionRepository.recordError
      dsimp only [GridLevelRepository.UpdateState]
      by_cases hdup : TransactionRepository.hasRecentIdenticalError db.txs now level.id
          level.symbol TransactionSide.BUY level.buyPrice e = true
      · rw [if_pos hdup]
        refine ⟨[], by simp, by simp, by simp, ?_⟩
        intro hfalse
        rw [hdup] at hfalse
        cases hfalse
      · rw [if_neg hdup]
        refine ⟨[_], rfl, by simp, ?_, fun _ => rfl⟩
        intro r hr
        rw [List.mem_singleton] at hr
        subst hr
        exact ⟨rfl, rfl, rfl, rfl, rfl⟩
  · intro hmem hst hen fa hfa herr
    have hany : db.levels.any (fun l => decide (l.id = level.id ∧
        l.state = GridState.HOLDING ∧ l.enabled = true ∧ l.filledAmount ≠ none)) = true := by
      simp only [List.any_eq_true, decide_eq_true_eq]
      exact ⟨level, hmem, rfl, hst, hen, by simp [hfa]⟩
    have hts : GridLevelRepository.TryStartSellOrder db level.id
        = (true, { db with levels := db.levels.map (fun l =>
            if l.id = level.id ∧ l.state = GridState.HOLDING ∧ l.enabled = true ∧
                l.filledAmount ≠ none then
              { l with state := GridState.PLACING_SELL } else l) }) := by
      unfold GridLevelRepository.TryStartSellOrder
      rw [if_pos hany]
    unfold GridService.tryPlaceSellOrder
    rw [hts]
    dsimp only
    rw [hfa]
    dsimp only
    rw [herr]
    constructor
    · show (TransactionRepository.RecordSellError (GridLevelRepository.UpdateState _ _ _)
          now level.id level.symbol level.sellPrice "order_placement_failed" e).levels = _
      have hrec : ∀ d : DB, (TransactionRepository.RecordSellError d now level.id
          level.symbol level.sellPrice "order_placement_failed" e).levels = d.levels := by
        intro d
        unfold TransactionRepository.RecordSellError TransactionRepository.recordError
        split <;> rfl
      rw [hrec]
      unfold GridLevelRepository.UpdateState
      show (db.levels.map _).map _ = _
      rw [List.map_map]
      refine List.map_congr_left (fun x _ => ?_)
      by_cases hid : x.id = level.id
      · by_cases hg : x.state = GridState.HOLDING ∧ x.enabled = true ∧ x.filledAmount ≠ none
        · simp [hid, hg.1, hg.2.1, hg.2.2]
        · simp [hid, hg]
      · simp [hid]
    · show ∃ rows, (TransactionRepository.RecordSellError (GridLevelRepository.UpdateState _ _ _)
          now level.id level.symbol level.sellPrice "order_placement_failed" e).txs
            = db.txs ++ rows ∧ _
      unfold TransactionRepository.RecordSellError TransactionRepository.recordError
      dsimp only [GridLevelRepository.UpdateState]
      by_cases hdup : TransactionRepository.hasRecentIdenticalError db.txs now level.id
          level.symbol TransactionSide.SELL level.sellPrice e = true
      · rw [if_pos hdup]
        refine ⟨[], by simp, by simp, by simp, ?_⟩
        intro hfalse
        rw [hdup] at hfalse
        cases hfalse
      · rw [if_neg hdup]
        refine ⟨[_], rfl, by simp, ?_, fun _ => rfl⟩
        intro r hr
        rw [List.mem_singleton] at hr
        subst hr
        exact ⟨rfl, rfl, rfl, rfl, rfl⟩

theorem C7_placement_failure_revert_witness :
    c4Level ∈ ({ levels := [c4Level], txs := [] } : DB).levels ∧
    stubService.assurancePlaceOrder { symbol := c4Level.symbol, price := c4Level.buyPrice, side := OrderSide.buy, amount := c4Level.buyAmount } = Except.error "unavailable" ∧
    ((stubService.tryPlaceBuyOrder 0 { levels := [c4Level], txs := [] } c4Level).1.levels
        = ({ levels := [c4Level], txs := [] } : DB).levels.map
            (fun x => if x.id = c4Level.id
              then { x with state := GridState.READY } else x) ∧
      (∃ rows, (stubService.tryPlaceBuyOrder 0 { levels := [c4Level], txs := [] } c4Level).1.txs
          = ({ levels := [c4Level], txs := [] } : DB).txs ++ rows ∧
        rows.length ≤ 1 ∧
        (∀ r ∈ rows, r.status = TransactionStatus.ERROR ∧
          r.errorCode = some "order_placement_failed" ∧ r.errorMsg = some "unavailable" ∧
          r.gridLevelID = c4Level.id ∧ r.side = TransactionSide.BUY) ∧
        (TransactionRepository.hasRecentIdenticalError
            ({ levels := [c4Level], txs := [] } : DB).txs 0 c4Level.id
            c4Level.symbol TransactionSide.BUY c4Level.buyPrice "unavailable" = false →
          rows.length = 1))) :=
  ⟨by decide, rfl,
    (C7_placement_failure_revert stubService 0 { levels := [c4Level], txs := [] }
        c4Level "unavailable").1 (by decide) (by decide) (by decide) rfl⟩

/-! ## Shape lemmas for the fill path -/

/-- A per-row update function that never touches `buy_order_id`, never
changes the row id, and never moves a row into BUY_ACTIVE. -/
def tameFn (g : GridLevel → GridLevel) : Prop :=
  ∀ x, (g x).buyOrderID = x.buyOrderID ∧ (g x).id = x.id ∧
    ((g x).state = GridState.BUY_ACTIVE → x.state = GridState.BUY_ACTIVE)

theorem tameFn_comp {g1 g2 : GridLevel → GridLevel} (h1 : tameFn g1) (h2 : tameFn g2) :
    tameFn (fun x => g2 (g1 x)) := by
  intro x
  obtain ⟨ha1, hb1, hc1⟩ := h1 x
  obtain ⟨ha2, hb2, hc2⟩ := h2 (g1 x)
  exact ⟨ha2.trans ha1, hb2.trans hb1, fun h => hc1 (hc2 h)⟩

/-- `recordError` never touches `grid_levels`. -/
theorem recordError_levels (db : DB) (now : Nat) (gridLevelID : Nat) (symbol : String)
    (side : TransactionSide) (targetPrice : Dec) (errorCode errorMsg : String) :
    (TransactionRepository.recordError db now gridLevelID symbol side targetPrice
      errorCode errorMsg).levels = db.levels := by
  unfold TransactionRepository.recordError
  split <;> rfl

/-- `recordError` appends at most one row, and only an ERROR row. -/
theorem recordError_txs (db : DB) (now : Nat) (gridLevelID : Nat) (symbol : String)
    (side : TransactionSide) (targetPrice : Dec) (errorCode errorMsg : String) :
    ∃ rest, (TransactionRepository.recordError db now gridLevelID symbol side targetPrice
        errorCode errorMsg).txs = db.txs ++ rest ∧
      ∀ t ∈ rest, t.status = TransactionStatus.ERROR := by
  unfold TransactionRepository.recordError
  split
  · exact ⟨[], by simp, by simp⟩
  · refine ⟨[_], rfl, ?_⟩
    intro t ht
    rw [List.mem_singleton] at ht
    subst ht
    rfl

/-- Reduction helper: an `if` on the Bool test `true = false` takes the
else branch. -/
theorem if_true_eq_false {α : Type} (a b : α) :
    (if (true : Bool) = false then a else b) = b := by simp

/-- Reduction helper: an `if` on the Bool test `false = false` takes the
then branch. -/
theorem if_false_eq_false {α : Type} (a b : α) :
    (if (false : Bool) = false then a else b) = a := by simp

/-- The sell-placement attempt maps levels through a `tameFn` update and
appends only non-FILLED audit rows. -/
theorem tryPlaceSellOrder_shape (s : GridService) (now : Nat) (db : DB)
    (level : GridLevel) :
    ∃ (g : GridLevel → GridLevel) (rest : List Transaction),
      tameFn g ∧
      (s.tryPlaceSellOrder now db level).1.levels = db.levels.map g ∧
      (s.tryPlaceSellOrder now db level).1.txs = db.txs ++ rest ∧
      (∀ t ∈ rest, t.status ≠ TransactionStatus.FILLED) := by
  have htameSell : tameFn (fun l => if l.id = level.id ∧ l.state = GridState.HOLDING ∧
      l.enabled = true ∧ l.filledAmount ≠ none then
        { l with state := GridState.PLACING_SELL } else l) := by
    intro x
    dsimp only
    split <;> simp
  have htameHold : tameFn (fun l => if l.id = level.id then
      { l with state := GridState.HOLDING } else l) := by
    intro x
    dsimp only
    split <;> simp
  unfold GridService.tryPlaceSellOrder
  by_cases hany : db.levels.any (fun l => decide (l.id = level.id ∧
      l.state = GridState.HOLDING ∧ l.enabled = true ∧ l.filledAmount ≠ none)) = true
  · have hts : GridLevelRepository.TryStartSellOrder db level.id
        = (true, { db with levels := db.levels.map (fun l =>
            if l.id = level.id ∧ l.state = GridState.HOLDING ∧ l.enabled = true ∧
                l.filledAmount ≠ none then
              { l with state := GridState.PLACING_SELL } else l) }) := by
      unfold GridLevelRepository.TryStartSellOrder
      rw [if_pos hany]
    rw [hts]
    dsimp only
    rw [if_true_eq_false]
    cases hfa : level.filledAmount with
    | none =>
        dsimp only
        refine ⟨fun l => (fun x => if x.id = level.id then
            { x with state := GridState.HOLDING } else x)
            ((fun x => if x.id = level.id ∧ x.state = GridState.HOLDING ∧
                x.enabled = true ∧ x.filledAmount ≠ none then
              { x with state := GridState.PLACING_SELL } else x) l), [],
          tameFn_comp htameSell htameHold, ?_,
          by simp [GridLevelRepository.UpdateState], by simp⟩
        unfold GridLevelRepository.UpdateState
        dsimp only
        rw [List.map_map]
        rfl
    | some fa =>
        dsimp only
        cases hgw : s.assurancePlaceOrder { symbol := level.symbol, price := level.sellPrice, side := OrderSide.sell, amount := fa } with
        | error e =>
            dsimp only
            obtain ⟨rest, hrest, herrst⟩ := recordError_txs
              (GridLevelRepository.UpdateState { db with levels := db.levels.map (fun l =>
                if l.id = level.id ∧ l.state = GridState.HOLDING ∧ l.enabled = true ∧
                    l.filledAmount ≠ none then
                  { l with state := GridState.PLACING_SELL } else l) }
                level.id GridState.HOLDING) now level.id level.symbol
              TransactionSide.SELL level.sellPrice "order_placement_failed" e
            refine ⟨fun l => (fun x => if x.id = level.id then
                { x with state := GridState.HOLDING } else x)
                ((fun x => if x.id = level.id ∧ x.state = GridState.HOLDING ∧
                    x.enabled = true ∧ x.filledAmount ≠ none then
                  { x with state := GridState.PLACING_SELL } else x) l), rest,
              tameFn_comp htameSell htameHold, ?_, ?_, ?_⟩
            · show (TransactionRepository.RecordSellError _ _ _ _ _ _ _).levels = _
              unfold TransactionRepository.RecordSellError
              rw [recordError_levels]
              unfold GridLevelRepository.UpdateState
              dsimp only
              rw [List.map_map]
              rfl
            · show (TransactionRepository.RecordSellError _ _ _ _ _ _ _).txs = _
              unfold TransactionRepository.RecordSellError
              exact hrest
            · intro t ht
              rw [herrst t ht]
              intro h
              cases h
        | ok resp =>
            dsimp only
            by_cases hany2 : ((db.levels.map (fun l =>
                if l.id = level.id ∧ l.state = GridState.HOLDING ∧ l.enabled = true ∧
                    l.filledAmount ≠ none then
                  { l with state := GridState.PLACING_SELL } else l)).any
                (fun l => decide (l.id = level.id ∧ l.state = GridState.PLACING_SELL))) = true
            · have hupd : GridLevelRepository.UpdateSellOrderPlaced
                  { db with levels := db.levels.map (fun l =>
                    if l.id = level.id ∧ l.state = GridState.HOLDING ∧ l.enabled = true ∧
                        l.filledAmount ≠ none then
                      { l with state := GridState.PLACING_SELL } else l) }
                  level.id resp.orderID
                  = (true, { db with levels := (db.levels.map (fun l =>
                      if l.id = level.id ∧ l.state = GridState.HOLDING ∧ l.enabled = true ∧
                          l.filledAmount ≠ none then
                        { l with state := GridState.PLACING_SELL } else l)).map (fun l =>
                      if l.id = level.id ∧ l.state = GridState.PLACING_SELL then
                        { l with state := GridState.SELL_ACTIVE,
                                 sellOrderID := some resp.orderID } else l) }) := by
                unfold GridLevelRepository.UpdateSellOrderPlaced
                rw [if_pos hany2]
              rw [hupd]
              dsimp only
              rw [if_true_eq_false]
              refine ⟨fun l => (fun x => if x.id = level.id ∧
                  x.state = GridState.PLACING_SELL then
                    { x with state := GridState.SELL_ACTIVE,
                             sellOrderID := some resp.orderID } else x)
                  ((fun x => if x.id = level.id ∧ x.state = GridState.HOLDING ∧
                      x.enabled = true ∧ x.filledAmount ≠ none then
                    { x with state := GridState.PLACING_SELL } else x) l), [_],
                ?_, ?_, rfl, ?_⟩
              · have h2 : tameFn (fun x => if x.id = level.id ∧
                    x.state = GridState.PLACING_SELL then
                      { x with state := GridState.SELL_ACTIVE,
                               sellOrderID := some resp.orderID } else x) := by
                  intro x
                  dsimp only
                  split <;> simp
                exact tameFn_comp htameSell h2
              · rw [List.map_map]
                rfl
              · intro t ht
                rw [List.mem_singleton] at ht
                subst ht
                intro h
                cases h
            · have hupd : GridLevelRepository.UpdateSellOrderPlaced
                  { db with levels := db.levels.map (fun l =>
                    if l.id = level.id ∧ l.state = GridState.HOLDING ∧ l.enabled = true ∧
                        l.filledAmount ≠ none then
                      { l with state := GridState.PLACING_SELL } else l) }
                  level.id resp.orderID
                  = (false, { db with levels := db.levels.map (fun l =>
                      if l.id = level.id ∧ l.state = GridState.HOLDING ∧ l.enabled = true ∧
                          l.filledAmount ≠ none then
                        { l with state := GridState.PLACING_SELL } else l) }) := by
                unfold GridLevelRepository.UpdateSellOrderPlaced
                rw [if_neg hany2]
              rw [hupd]
              dsimp only
              rw [if_false_eq_false]
              exact ⟨fun l => (fun x => if x.id = level.id ∧ x.state = GridState.HOLDING ∧
                  x.enabled = true ∧ x.filledAmount ≠ none then
                { x with state := GridState.PLACING_SELL } else x) l, [],
                htameSell, rfl, by simp, by simp⟩
  · have hts : GridLevelRepository.TryStartSellOrder db level.id = (false, db) := by
      unfold GridLevelRepository.TryStartSellOrder
      rw [if_neg hany]
    rw [hts]
    dsimp only
    rw [if_false_eq_false]
    exact ⟨fun l => l, [], by intro x; simp, by simp, by simp, by simp⟩

/-- A successful buy-fill notification appends one BUY/FILLED audit row
followed only by non-FILLED rows (from the eager sell placement). -/
theorem processBuyFillNotification_txs (s : GridService) (now : Nat) (db : DB)
    (orderID : String) (amt fp : Dec) (level : GridLevel)
    (hfind : GridLevelRepository.GetByBuyOrderID db orderID = some level)
    (hstate : level.state = GridState.BUY_ACTIVE) :
    ∃ row rest,
      (s.ProcessBuyFillNotification now db orderID amt fp).txs = db.txs ++ row :: rest ∧
      row.side = TransactionSide.BUY ∧ row.status = TransactionStatus.FILLED ∧
      row.gridLevelID = level.id ∧ row.orderID = some orderID ∧
      row.amountUSDT = some (amt * fp) ∧
      (∀ t ∈ rest, t.status ≠ TransactionStatus.FILLED) := by
  unfold GridService.ProcessBuyFillNotification
  rw [hfind]
  dsimp only
  have hcond : ¬ (level.state ≠ GridState.BUY_ACTIVE) := by simp [hstate]
  rw [if_neg hcond]
  cases hu : GridLevelRepository.GetByID
      (TransactionRepository.RecordBuyFilled
        (GridLevelRepository.ProcessBuyFill db level.id amt) now level.id level.symbol
        orderID level.buyPrice fp amt (amt * fp)) level.id with
  | none =>
      dsimp only
      exact ⟨TransactionRepository.buyFilledRow
          (GridLevelRepository.ProcessBuyFill db level.id amt) now level.id level.symbol
          orderID level.buyPrice fp amt (amt * fp), [],
        rfl, rfl, rfl, rfl, rfl, rfl, by simp⟩
  | some u =>
      dsimp only
      by_cases hu2 : u.state = GridState.HOLDING
      · rw [if_pos hu2]
        obtain ⟨g, rest, _, _, htxs, hnf⟩ := tryPlaceSellOrder_shape s now
          (TransactionRepository.RecordBuyFilled
            (GridLevelRepository.ProcessBuyFill db level.id amt) now level.id level.symbol
            orderID level.buyPrice fp amt (amt * fp)) u
        refine ⟨TransactionRepository.buyFilledRow
            (GridLevelRepository.ProcessBuyFill db level.id amt) now level.id level.symbol
            orderID level.buyPrice fp amt (amt * fp), rest,
          ?_, rfl, rfl, rfl, rfl, rfl, hnf⟩
        rw [htxs]
        show ((GridLevelRepository.ProcessBuyFill db level.id amt).txs ++ _) ++ rest = _
        rw [List.append_assoc]
        rfl
      · rw [if_neg hu2]
        exact ⟨TransactionRepository.buyFilledRow
            (GridLevelRepository.ProcessBuyFill db level.id amt) now level.id level.symbol
            orderID level.buyPrice fp amt (amt * fp), [],
          rfl, rfl, rfl, rfl, rfl, rfl, by simp⟩

/-- After a successful buy-fill notification no level carries the consumed
`buy_order_id` any more and the filled level is no longer BUY_ACTIVE (the
state guard blocks reprocessing). -/
theorem processBuyFillNotification_clears (s : GridService) (now : Nat) (db : DB)
    (orderID : String) (amt fp : Dec) (level : GridLevel)
    (hfind : GridLevelRepository.GetByBuyOrderID db orderID = some level)
    (hstate : level.state = GridState.BUY_ACTIVE)
    (huniq : ∀ x ∈ db.levels, x.buyOrderID = some orderID → x = level) :
    ∀ x ∈ (s.ProcessBuyFillNotification now db orderID amt fp).levels,
      x.buyOrderID ≠ some orderID ∧
      (x.id = level.id → x.state ≠ GridState.BUY_ACTIVE) := by
  have hbase : ∀ x ∈ db.levels.map (fun l =>
      if l.id = level.id ∧ l.state = GridState.BUY_ACTIVE then
        { l with state := GridState.HOLDING, filledAmount := some amt,
                 buyOrderID := none }
      else l),
      x.buyOrderID ≠ some orderID ∧
      (x.id = level.id → x.state ≠ GridState.BUY_ACTIVE) := by
    intro x hx
    obtain ⟨y, hy, rfl⟩ := List.mem_map.mp hx
    by_cases hc : y.id = level.id ∧ y.state = GridState.BUY_ACTIVE
    · simp [hc.1, hc.2]
    · rw [if_neg hc]
      constructor
      · intro hoid
        have hyl : y = level := huniq y hy hoid
        exact hc ⟨by rw [hyl], by rw [hyl]; exact hstate⟩
      · intro hid hact
        exact hc ⟨hid, hact⟩
  unfold GridService.ProcessBuyFillNotification
  rw [hfind]
  dsimp only
  have hcond : ¬ (level.state ≠ GridState.BUY_ACTIVE) := by simp [hstate]
  rw [if_neg hcond]
  cases hu : GridLevelRepository.GetByID
      (TransactionRepository.RecordBuyFilled
        (GridLevelRepository.ProcessBuyFill db level.id amt) now level.id level.symbol
        orderID level.buyPrice fp amt (amt * fp)) level.id with
  | none =>
      dsimp only
      exact hbase
  | some u =>
      dsimp only
      by_cases hu2 : u.state = GridState.HOLDING
      · rw [if_pos hu2]
        obtain ⟨g, rest, htame, hlv, _, _⟩ := tryPlaceSellOrder_shape s now
          (TransactionRepository.RecordBuyFilled
            (GridLevelRepository.ProcessBuyFill db level.id amt) now level.id level.symbol
            orderID level.buyPrice fp amt (amt * fp)) u
        intro x hx
        rw [hlv] at hx
        obtain ⟨z, hz, rfl⟩ := List.mem_map.mp hx
        obtain ⟨hgo, hgi, hgs⟩ := htame z
        have hz' : z ∈ db.levels.map (fun l =>
            if l.id = level.id ∧ l.state = GridState.BUY_ACTIVE then
              { l with state := GridState.HOLDING, filledAmount := some amt,
                       buyOrderID := none }
            else l) := hz
        obtain ⟨hzo, hzs⟩ := hbase z hz'
        refine ⟨by rw [hgo]; exact hzo, ?_⟩
        intro hid hact
        exact hzs (by rw [← hgi]; exact hid) (hgs hact)
      · rw [if_neg hu2]
        exact hbase

/-! ## Claim C3: duplicate buy-fill deliveries are absorbed -/

/-- C3: delivering the same buy-fill notification N ≥ 1 times produces the
same store as delivering it once; the single accepted delivery appends
exactly one (BUY/)FILLED audit row and performs the one guarded
`BUY_ACTIVE → HOLDING` advance, clearing `buy_order_id` and leaving the
level outside BUY_ACTIVE, so every later identical delivery is ignored with
no state change and no audit row. -/
theorem C3_duplicate_buy_fill_idempotent (s : GridService) (now : Nat) (db : DB)
    (orderID : String) (amt fp : Dec) (level : GridLevel)
    (hmem : level ∈ db.levels) (hoid : level.buyOrderID = some orderID)
    (hstate : level.state = GridState.BUY_ACTIVE)
    (huniq : ∀ x ∈ db.levels, x.buyOrderID = some orderID → x = level) :
    (∀ N, 1 ≤ N →
      (fun d => s.ProcessBuyFillNotification now d orderID amt fp)^[N] db
        = s.ProcessBuyFillNotification now db orderID amt fp) ∧
    filledCount (s.ProcessBuyFillNotification now db orderID amt fp)
      = filledCount db + 1 ∧
    (∃ row rest,
      (s.ProcessBuyFillNotification now db orderID amt fp).txs = db.txs ++ row :: rest ∧
      row.side = TransactionSide.BUY ∧ row.status = TransactionStatus.FILLED ∧
      row.gridLevelID = level.id ∧ row.orderID = some orderID ∧
      row.amountUSDT = some (amt * fp) ∧
      (∀ t ∈ rest, t.status ≠ TransactionStatus.FILLED)) ∧
    (∀ x ∈ (s.ProcessBuyFillNotification now db orderID amt fp).levels,
      x.buyOrderID ≠ some orderID ∧
      (x.id = level.id → x.state ≠ GridState.BUY_ACTIVE)) := by
  have hfind : GridLevelRepository.GetByBuyOrderID db orderID = some level := by
    unfold GridLevelRepository.GetByBuyOrderID
    refine find?_eq_some_unique _ _ _ hmem (by simp [hoid]) ?_
    intro b hb hpb
    exact huniq b hb (by simpa using hpb)
  have htxs := processBuyFillNotification_txs s now db orderID amt fp level hfind hstate
  have hclears := processBuyFillNotification_clears s now db orderID amt fp level
    hfind hstate huniq
  have hfix : s.ProcessBuyFillNotification now
      (s.ProcessBuyFillNotification now db orderID amt fp) orderID amt fp
      = s.ProcessBuyFillNotification now db orderID amt fp := by
    have hnone : GridLevelRepository.GetByBuyOrderID
        (s.ProcessBuyFillNotification now db orderID amt fp) orderID = none := by
      unfold GridLevelRepository.GetByBuyOrderID
      rw [List.find?_eq_none]
      intro x hx
      simp only [decide_eq_true_eq]
      exact (hclears x hx).1
    conv_lhs => rw [GridService.ProcessBuyFillNotification]
    rw [hnone]
  refine ⟨?_, ?_, htxs, hclears⟩
  · intro N hN
    obtain ⟨M, rfl⟩ : ∃ M, N = M + 1 := ⟨N - 1, by omega⟩
    rw [Function.iterate_succ_apply]
    exact Function.iterate_fixed hfix M
  · obtain ⟨row, rest, he, _, hrst, _, _, _, hnf⟩ := htxs
    exact filledCount_append db _ row rest he hrst hnf

/-- A BUY_ACTIVE level with an outstanding buy order; C3 witness data. -/
def c3Level : GridLevel :=
  { id := 3, symbol := "ETH", buyPrice := 3600, sellPrice := 3800,
    buyAmount := 1000, filledAmount := none, state := GridState.BUY_ACTIVE,
    buyOrderID := some "B1", sellOrderID := none, enabled := true }

/-- C3 witness store. -/
def c3DB : DB := { levels := [c3Level], txs := [] }

theorem C3_duplicate_buy_fill_idempotent_witness :
    c3Level ∈ c3DB.levels ∧ c3Level.buyOrderID = some "B1" ∧
    (fun d => stubService.ProcessBuyFillNotification 7 d "B1" (1 / 4) 3650)^[2] c3DB
      = stubService.ProcessBuyFillNotification 7 c3DB "B1" (1 / 4) 3650 :=
  ⟨by decide, by decide,
    (C3_duplicate_buy_fill_idempotent stubService 7 c3DB "B1" (1 / 4) 3650 c3Level
      (by decide) (by decide) (by decide) (by decide)).1 2 (by decide)⟩

/-! ## Claim C2: sweeper fill handling equals the webhook path -/

/-- A successful sell-fill notification appends exactly one (SELL/)FILLED
audit row. -/
theorem processSellFillNotification_txs (s : GridService) (now : Nat) (db : DB)
    (orderID : String) (amt fp : Dec) (l : GridLevel)
    (hfind : GridLevelRepository.GetBySellOrderID db orderID = some l)
    (hstate : l.state = GridState.SELL_ACTIVE) :
    ∃ row, (s.ProcessSellFillNotification now db orderID amt fp).txs = db.txs ++ [row] ∧
      row.side = TransactionSide.SELL ∧ row.status = TransactionStatus.FILLED := by
  unfold GridService.ProcessSellFillNotification
  rw [hfind]
  dsimp only
  have hcond : ¬ (l.state ≠ GridState.SELL_ACTIVE) := by simp [hstate]
  rw [if_neg hcond]
  cases hbt : TransactionRepository.GetLastBuyForLevel db l.id with
  | none =>
      dsimp only
      exact ⟨_, rfl, rfl, rfl⟩
  | some bt =>
      dsimp only
      cases hbu : bt.amountUSDT with
      | none =>
          dsimp only
          exact ⟨_, rfl, rfl, rfl⟩
      | some v =>
          dsimp only
          by_cases hv : 0 < v
          · rw [if_pos hv]
            exact ⟨_, rfl, rfl, rfl⟩
          · rw [if_neg hv]
            exact ⟨_, rfl, rfl, rfl⟩

/-- C2: when the sweeper's `checkAndUpdateOrderStatus` observes status
"filled" (with fill data) for a level's outstanding order, the resulting
processing IS the webhook fill path — the same function applied to the same
arguments — and, when the level lookup and state guard admit the fill, that
shared path appends exactly one FILLED audit row. -/
theorem C2_sweeper_equals_webhook (s : GridService) (now : Nat) (db : DB)
    (level : GridLevel) (orderID : String) (isBuy : Bool) (st : OrderStatus)
    (amt fp : Dec)
    (hstatus : s.assuranceGetOrderStatus level.symbol orderID = Except.ok (some st))
    (hfilled : st.status = "filled")
    (hamt : st.filledAmount = some amt) (hfp : st.fillPrice = some fp) :
    s.checkAndUpdateOrderStatus now db level orderID isBuy
      = (if isBuy then s.ProcessBuyFillNotification now db orderID amt fp
         else s.ProcessSellFillNotification now db orderID amt fp) ∧
    (∀ l, GridLevelRepository.GetByBuyOrderID db orderID = some l →
      l.state = GridState.BUY_ACTIVE →
      filledCount (s.ProcessBuyFillNotification now db orderID amt fp)
        = filledCount db + 1) ∧
    (∀ l, GridLevelRepository.GetBySellOrderID db orderID = some l →
      l.state = GridState.SELL_ACTIVE →
      filledCount (s.ProcessSellFillNotification now db orderID amt fp)
        = filledCount db + 1) := by
  refine ⟨?_, ?_, ?_⟩
  · unfold GridService.checkAndUpdateOrderStatus
    rw [hstatus]
    dsimp only
    rw [hfilled, if_pos rfl, hamt, hfp]
  · intro l hl hst
    obtain ⟨row, rest, he, _, hrst, _, _, _, hnf⟩ :=
      processBuyFillNotification_txs s now db orderID amt fp l hl hst
    exact filledCount_append db _ row rest he hrst hnf
  · intro l hl hst
    obtain ⟨row, he, _, hrst⟩ :=
      processSellFillNotification_txs s now db orderID amt fp l hl hst
    exact filledCount_append db _ row [] he hrst (by simp)

/-- The filled status reported by the C2 witness gateway. -/
def c2Status : OrderStatus :=
  { orderID := "B1", status := "filled", filledAmount := some (1 / 4),
    fillPrice := some 3650 }

/-- A gateway whose status lookup always reports `c2Status`; C2 witness. -/
def c2Service : GridService :=
  { assurancePlaceOrder := fun _ => Except.error "unavailable",
    assuranceGetOrderStatus := fun _ _ => Except.ok (some c2Status),
    feeRate := 1 / 1000 }

theorem C2_sweeper_equals_webhook_witness :
    c2Service.assuranceGetOrderStatus c3Level.symbol "B1" = Except.ok (some c2Status) ∧
    c2Status.status = "filled" ∧
    c2Service.checkAndUpdateOrderStatus 7 c3DB c3Level "B1" true
      = (if true then c2Service.ProcessBuyFillNotification 7 c3DB "B1" (1 / 4) 3650
         else c2Service.ProcessSellFillNotification 7 c3DB "B1" (1 / 4) 3650) :=
  ⟨rfl, rfl,
    (C2_sweeper_equals_webhook c2Service 7 c3DB c3Level "B1" true c2Status (1 / 4) 3650
      rfl rfl rfl rfl).1⟩

end GridBot
